import Mathlib

/-!
Verification of the `skribblin` blog components (Gatsby/React, JavaScript)
against their natural-language specification, via a shallow embedding of
`src/components/layout.js`, `src/components/bio.js` and the markdown
content front matter in Lean 4.

React/JSX element trees are embedded as the inductive `Markup`; component
functions become Lean functions from their props to `Markup`.  The ambient
clock read by `new Date().getFullYear()` in the Layout footer becomes an
explicit `currentYear` parameter.  JavaScript `x || y` on possibly-null
strings is embedded as `jsOr` on `Option String` (both `null` and the
empty string are falsy).
-/

/-- A React/JSX element tree: an element with a tag, a list of
(attribute, value) pairs and child nodes; an escaped text node; a raw
HTML node (the embedding of `dangerouslySetInnerHTML`); or a node carrying
a React `key`. -/
inductive Markup where
  | element (tag : String) (attrs : List (String × String)) (children : List Markup)
  | text (s : String)
  | raw (s : String)
  | keyed (key : String) (child : Markup)

/-- Embedding of JavaScript `a || b` where `a` is a nullable string:
`null`/`undefined` and the empty string are falsy, so they fall through
to `b`. -/
def jsOr (a : Option String) (b : String) : String :=
  match a with
  | none => b
  | some s => if s = "" then b else s

/-- `fields { slug }` of a markdown node, from the page query in
`layout.js`. -/
structure Fields where
  slug : String
deriving DecidableEq, Repr

/-- `frontmatter { date title description }` of a markdown node, from the
page query in `layout.js`.  `title` and `description` are nullable in the
GraphQL result. -/
structure Frontmatter where
  date : String
  title : Option String
  description : Option String
deriving DecidableEq, Repr

/-- A markdown node as delivered by the data layer: `excerpt`,
`fields { slug }`, `frontmatter { date title description }`. -/
structure PostNode where
  excerpt : String
  fields : Fields
  frontmatter : Frontmatter
deriving DecidableEq, Repr

/-- One edge of `allMarkdownRemark.edges`. -/
structure Edge where
  node : PostNode
deriving DecidableEq, Repr

/-- The `location` prop: only `pathname` is consulted by the code. -/
structure Location where
  pathname : String
deriving DecidableEq, Repr

/-- The slice of `data` consumed by `BlogIndex`:
`data.site.siteMetadata.title` and `data.allMarkdownRemark.edges`. -/
structure BlogIndexData where
  siteTitle : String
  edges : List Edge
deriving DecidableEq, Repr

/-- The site metadata slice fetched by Bio's static query:
`siteMetadata { author social { twitter } }`. -/
structure BioMetadata where
  author : String
  socialTwitter : String
deriving DecidableEq, Repr

/-- `rhythm` from the external `typography` package (configured in
`src/utils/typography.js`), modelled symbolically: the claims only track
which rhythm value is attached where, never its numeric CSS expansion. -/
def rhythm (n : ℚ) : String :=
  "rhythm(" ++ toString n ++ ")"

/-- `scale` from the external `typography` package, modelled symbolically
as the style entries contributed by `...scale(n)`. -/
def scale (n : ℚ) : List (String × String) :=
  [("typographyScale", toString n)]

/-- `const rootPath = ${__PATH_PREFIX__}/` in `layout.js`; the build-time
global `__PATH_PREFIX__` is the empty string by default. -/
def rootPath : String := "/"

/-- The `Title` component of `layout.js`: a Gatsby `Link` to `"/"` whose
text is the given title. -/
def Title (title : String) : Markup :=
  .element "Link"
    [("boxShadow", "none"), ("textDecoration", "none"), ("color", "inherit"),
     ("to", "/")]
    [.text title]

/-- The `header` prop added by `addProps` in `Layout`: an `h1` at
`scale(1.5)` on the root path, otherwise an `h3`, each wrapping
`<Title title={title} />`. -/
def layoutHeader (location : Location) (title : String) : Markup :=
  if location.pathname = rootPath then
    .element "h1"
      (scale (3 / 2) ++ [("marginBottom", rhythm (3 / 2)), ("marginTop", "0")])
      [Title title]
  else
    .element "h3"
      [("fontFamily", "Montserrat, sans-serif"), ("marginTop", "0")]
      [Title title]

/-- The `Layout` component of `layout.js`: container `div` with a
`header` (route-dependent heading), a `main` holding the children, and a
`footer` with the copyright line.  `currentYear` is the embedding of the
`new Date().getFullYear()` call in the footer. -/
def Layout (location : Location) (title : String) (children : List Markup)
    (currentYear : Int) : Markup :=
  .element "div"
    [("marginLeft", "auto"), ("marginRight", "auto"),
     ("maxWidth", rhythm 24),
     ("padding", rhythm (3 / 2) ++ " " ++ rhythm (3 / 4))]
    [.element "header" [] [layoutHeader location title],
     .element "main" [] children,
     .element "footer" []
       [.text "© ", .text (toString currentYear), .text ", Built with",
        .text " ",
        .element "a" [("href", "https://www.gatsbyjs.org")] [.text "Gatsby"]]]

/-- The `PostLink` component: heading link to the post's slug (title
falling back to the slug), the formatted date, and a summary paragraph
whose inner HTML is `description || excerpt` set via
`dangerouslySetInnerHTML`. -/
def PostLink (post : PostNode) : Markup :=
  .element "div" []
    [.element "h3" [("marginBottom", rhythm (1 / 4))]
       [.element "Link" [("boxShadow", "none"), ("to", post.fields.slug)]
          [.text (jsOr post.frontmatter.title post.fields.slug)]],
     .element "small" [] [.text post.frontmatter.date],
     .element "p" [] [.raw (jsOr post.frontmatter.description post.excerpt)]]

/-- The `<SEO title="All posts" keywords={[...]} />` element rendered by
`BlogIndex`; the `SEO` component itself lives outside the embedded files,
so it stays an unexpanded element carrying its props. -/
def seoNode : Markup :=
  .element "SEO"
    [("title", "All posts"), ("keywords", "blog,gatsby,javascript,react")] []

/-- The `<Bio />` element rendered by `BlogIndex`, unexpanded (Bio
resolves its own static query). -/
def bioNode : Markup :=
  .element "Bio" [] []

/-- The list rendered by `posts.map(...)` in `BlogIndex`: one
`<PostLink post={node} key={slug} />` per edge, in edge order. -/
def postEntries (edges : List Edge) : List Markup :=
  edges.map fun e => .keyed e.node.fields.slug (PostLink e.node)

/-- The `BlogIndex` component: a `Layout` at the given location and site
title, whose children are the SEO element, the Bio element, and one keyed
`PostLink` per edge. -/
def BlogIndex (data : BlogIndexData) (location : Location)
    (currentYear : Int) : Markup :=
  Layout location data.siteTitle
    (seoNode :: bioNode :: postEntries data.edges) currentYear

/-- The `Bio` component (`src/components/bio.js`): renders the author
blurb from the static-query result; the `social` field of the query is
commented out in the destructuring and never used. -/
def Bio (meta : BioMetadata) : Markup :=
  .element "div" [("display", "flex"), ("marginBottom", rhythm (5 / 2))]
    [.element "p" []
       [.text "Written by ", .element "strong" [] [.text meta.author],
        .text " who lives and works in NYC."]]

/-- First attribute value bound to key `k`, mirroring how React reads a
prop from an element. -/
def lookupAttr (k : String) : List (String × String) → Option String
  | [] => none
  | (k2, v) :: rest => if k2 = k then some v else lookupAttr k rest

/-- Tag of an element node. -/
def tagOf : Markup → Option String
  | .element t _ _ => some t
  | _ => none

/-- Attribute list of an element node. -/
def attrsOf : Markup → List (String × String)
  | .element _ a _ => a
  | _ => []

/-- Children of an element node. -/
def childrenOf : Markup → List Markup
  | .element _ _ c => c
  | _ => []

/-- The heading inside the `<header>` slot of a Layout tree. -/
def headerOf : Markup → Option Markup
  | .element _ _ (.element "header" _ [h] :: _) => some h
  | _ => none

/-- The children of the `<main>` slot of a Layout tree. -/
def mainChildrenOf : Markup → Option (List Markup)
  | .element _ _ [_, .element "main" _ cs, _] => some cs
  | _ => none

/-- Target (`to` prop) of a `Link` element. -/
def linkTargetOf : Markup → Option String
  | .element "Link" a _ => lookupAttr "to" a
  | _ => none

/-- Text content of a `Link` element. -/
def linkTextOf : Markup → Option String
  | .element "Link" _ [.text s] => some s
  | _ => none

/-- The heading link of a PostLink tree (the `Link` inside its `h3`). -/
def headingLinkOf : Markup → Option Markup
  | .element _ _ (.element "h3" _ [l] :: _) => some l
  | _ => none

/-- The date text of a PostLink tree (content of its `<small>`). -/
def dateTextOf : Markup → Option String
  | .element _ _ [_, .element "small" _ [.text d], _] => some d
  | _ => none

/-- The raw summary string of a PostLink tree (the inner HTML of its
`<p>`). -/
def summaryRawOf : Markup → Option String
  | .element _ _ [_, _, .element "p" _ [.raw s]] => some s
  | _ => none

/-- React key of a keyed node. -/
def entryKeyOf : Markup → Option String
  | .keyed k _ => some k
  | _ => none

/-- The component under a keyed node. -/
def entryChildOf : Markup → Option Markup
  | .keyed _ m => some m
  | _ => none

/-- The date displayed by a keyed PostLink entry. -/
def entryDateOf : Markup → Option String
  | .keyed _ m => dateTextOf m
  | _ => none

/-- A Layout tree with its footer slot removed: the clock-independent
part of Layout's output. -/
def withoutFooter : Markup → Markup
  | .element t a [h, m, _] => .element t a [h, m]
  | m => m

/-- HTML escaping of one character, as React applies to text children. -/
def escapeChar (c : Char) : List Char :=
  if c = '<' then "&lt;".data
  else if c = '>' then "&gt;".data
  else if c = '&' then "&amp;".data
  else [c]

/-- HTML escaping of a text node's content. -/
def escapeHtml (s : String) : String :=
  ⟨s.data.flatMap escapeChar⟩

/-- Attribute rendering for the HTML serialisation. -/
def renderAttrs : List (String × String) → String
  | [] => ""
  | (k, v) :: rest => " " ++ k ++ "=\"" ++ v ++ "\"" ++ renderAttrs rest

mutual

/-- Serialise a markup tree to HTML: text children are escaped, raw
nodes (`dangerouslySetInnerHTML`) are emitted verbatim, keys leave no
trace in the output. -/
def renderHtml : Markup → String
  | .text s => escapeHtml s
  | .raw s => s
  | .keyed _ m => renderHtml m
  | .element t a cs =>
      "<" ++ t ++ renderAttrs a ++ ">" ++ renderList cs ++ "</" ++ t ++ ">"

/-- Serialise a list of markup trees. -/
def renderList : List Markup → String
  | [] => ""
  | m :: ms => renderHtml m ++ renderList ms

end

/-- Rendering as a state transformation on the post data, mirroring that
`PostLink` only destructures (reads) its `post` prop: the second
component is the post data as it stands after rendering. -/
def renderPostLinkSt (post : PostNode) : Markup × PostNode :=
  (PostLink post, post)

/-- Rendering as a state transformation on the query data, mirroring that
`BlogIndex` only reads `data`: the second component is the data as it
stands after rendering. -/
def renderBlogIndexSt (data : BlogIndexData) (location : Location)
    (currentYear : Int) : Markup × BlogIndexData :=
  (BlogIndex data location currentYear, data)

/-- One markdown file's front-matter block, transcribed as the list of
its (key, value) pairs in file order. -/
structure FrontMatterFile where
  path : String
  entries : List (String × String)
deriving DecidableEq, Repr

/-- The front-matter blocks of every markdown blog post under
`content/blog`, transcribed from the files. -/
def blogFrontMatters : List FrontMatterFile :=
  [⟨"content/blog/ad-hok-intro-at-a-glance/index.md",
    [("title", "From vanilla React hooks to ad-hok: At a glance"),
     ("date", "2019-09-27T09:00:00.000Z")]⟩,
   ⟨"content/blog/dynamic-portal/index.md",
    [("title", "Using dynamic portals in React to “play nice with” autoplay policy"),
     ("date", "2019-06-09T20:02:38.000Z")]⟩,
   ⟨"content/blog/jiggle-webpack/index.md",
    [("title", "Tip: “Jiggle” Webpack when it can’t resolve a new import"),
     ("date", "2019-05-12T13:08:38.000Z")]⟩,
   ⟨"content/blog/slack-personal-activity-channel/index.md",
    [("title", "Slack tip: personal activity channel"),
     ("date", "2019-05-12T13:15:38.000Z")]⟩,
   ⟨"content/blog/useeffectonpropchange/index.md",
    [("title", "Handy React hooks helper: useEffectOnPropChange()"),
     ("date", "2019-06-09T18:02:38.000Z")]⟩,
   ⟨"content/blog/util-proptypes/index.md",
    [("title", "React best practice: util/propTypes module"),
     ("date", "2019-05-12T13:02:38.000Z")]⟩]

/-- Checks the `YYYY-MM-DDTHH:MM:SS.mmmZ` ISO 8601 timestamp shape used
by the blog's front matter. -/
def isIso8601 (s : String) : Bool :=
  match s.data with
  | [y1, y2, y3, y4, d1, m1, m2, d2, a1, a2, t, h1, h2, c1, n1, n2, c2,
     s1, s2, dot, f1, f2, f3, z] =>
      y1.isDigit && y2.isDigit && y3.isDigit && y4.isDigit &&
      d1 = '-' && m1.isDigit && m2.isDigit && d2 = '-' &&
      a1.isDigit && a2.isDigit && t = 'T' &&
      h1.isDigit && h2.isDigit && c1 = ':' &&
      n1.isDigit && n2.isDigit && c2 = ':' &&
      s1.isDigit && s2.isDigit && dot = '.' &&
      f1.isDigit && f2.isDigit && f3.isDigit && z = 'Z'
  | _ => false

/-! ### Helper lemmas -/

/-- `s` occurs verbatim (contiguously, unescaped) inside `t`. -/
def strContains (s t : String) : Prop :=
  ∃ pre suf, t = pre ++ (s ++ suf)

theorem strContains_head (s r : String) : strContains s (s ++ r) :=
  ⟨"", r, rfl⟩

theorem strContains_pull (a : String) {s t : String} (h : strContains s t) :
    strContains s (a ++ t) := by
  obtain ⟨p, q, hp⟩ := h
  exact ⟨a ++ p, q, by rw [hp, String.append_assoc]⟩

/-- The year text inside the footer slot of a Layout tree. -/
def footerYearTextOf : Markup → Option String
  | .element _ _ [_, _, .element "footer" _ [_, .text y, _, _, _]] => some y
  | _ => none

theorem postEntries_filterMap_dateOf (edges : List Edge) :
    (postEntries edges).filterMap entryDateOf =
      edges.map fun e => e.node.frontmatter.date := by
  induction edges with
  | nil => rfl
  | cons e es ih =>
      simpa [postEntries, List.filterMap_cons, entryDateOf, dateTextOf,
        PostLink] using ih

theorem postEntries_filterMap_keyOf (edges : List Edge) :
    (postEntries edges).filterMap entryKeyOf =
      edges.map fun e => e.node.fields.slug := by
  induction edges with
  | nil => rfl
  | cons e es ih =>
      simpa [postEntries, List.filterMap_cons, entryKeyOf] using ih

/-! ### Claims -/

/-- C1: for every data input whose `allMarkdownRemark.edges` list is
sorted by date descending (any ordering relation the data layer
guarantees), `BlogIndex` renders, inside its `main` slot and after the
SEO and Bio elements, exactly one keyed `PostLink` entry per post node,
in the same order as the input list; consequently the displayed dates
are the input dates and remain sorted, and `BlogIndex` performs no
reordering. -/
theorem blogIndex_one_entry_per_post_in_input_order
    (data : BlogIndexData) (location : Location) (currentYear : Int)
    (r : String → String → Prop)
    (hsorted : (data.edges.map fun e => e.node.frontmatter.date).Sorted r) :
    ∃ entries,
      mainChildrenOf (BlogIndex data location currentYear) =
        some (seoNode :: bioNode :: entries) ∧
      entries = data.edges.map
        (fun e => Markup.keyed e.node.fields.slug (PostLink e.node)) ∧
      entries.length = data.edges.length ∧
      entries.filterMap entryDateOf =
        data.edges.map (fun e => e.node.frontmatter.date) ∧
      (entries.filterMap entryDateOf).Sorted r := by
  refine ⟨postEntries data.edges, ?_, rfl, ?_,
    postEntries_filterMap_dateOf data.edges, ?_⟩
  · simp [BlogIndex, Layout, mainChildrenOf]
  · simp [postEntries]
  · rw [postEntries_filterMap_dateOf data.edges]; exact hsorted

/-- Witness for C1 at a concrete one-post data input. -/
theorem blogIndex_one_entry_per_post_in_input_order_witness :
    ∃ entries,
      mainChildrenOf (BlogIndex
          ⟨"skribblin", [⟨⟨"E", ⟨"/p1"⟩, ⟨"May 12, 2019", none, none⟩⟩⟩]⟩
          ⟨"/"⟩ 2019) =
        some (seoNode :: bioNode :: entries) ∧
      entries.length = 1 := by
  obtain ⟨entries, hmain, _, hlen, _, _⟩ :=
    blogIndex_one_entry_per_post_in_input_order
      ⟨"skribblin", [⟨⟨"E", ⟨"/p1"⟩, ⟨"May 12, 2019", none, none⟩⟩⟩]⟩
      ⟨"/"⟩ 2019 (fun _ _ => True) (by simp)
  exact ⟨entries, hmain, hlen⟩

/-- C2: for every location and title, Layout's header slot holds a
heading wrapping the `Title` link, which targets the root path `"/"`
with the site title as text in both cases; the heading is an `h1`
carrying the `scale(1.5)` style entries exactly when `location.pathname`
equals `rootPath`, and otherwise an `h3` without them. -/
theorem layout_header_title_link_and_route_heading
    (location : Location) (title : String) (children : List Markup)
    (currentYear : Int) :
    ∃ hd, headerOf (Layout location title children currentYear) = some hd ∧
      childrenOf hd = [Title title] ∧
      linkTargetOf (Title title) = some "/" ∧
      linkTextOf (Title title) = some title ∧
      (tagOf hd = some "h1" ↔ location.pathname = rootPath) ∧
      (location.pathname = rootPath →
        attrsOf hd = scale (3 / 2) ++
          [("marginBottom", rhythm (3 / 2)), ("marginTop", "0")]) ∧
      (location.pathname ≠ rootPath →
        tagOf hd = some "h3" ∧
        attrsOf hd = [("fontFamily", "Montserrat, sans-serif"),
          ("marginTop", "0")]) := by
  refine ⟨layoutHeader location title, ?_⟩
  by_cases h : location.pathname = rootPath <;>
    simp [Layout, headerOf, layoutHeader, h, Title, tagOf, childrenOf,
      attrsOf, linkTargetOf, linkTextOf, lookupAttr]

/-- Witness for C2 on the home route. -/
theorem layout_header_title_link_and_route_heading_witness :
    ∃ hd, headerOf (Layout ⟨"/"⟩ "skribblin" [] 2019) = some hd ∧
      childrenOf hd = [Title "skribblin"] ∧
      linkTargetOf (Title "skribblin") = some "/" ∧
      linkTextOf (Title "skribblin") = some "skribblin" ∧
      (tagOf hd = some "h1" ↔ (Location.mk "/").pathname = rootPath) ∧
      ((Location.mk "/").pathname = rootPath →
        attrsOf hd = scale (3 / 2) ++
          [("marginBottom", rhythm (3 / 2)), ("marginTop", "0")]) ∧
      ((Location.mk "/").pathname ≠ rootPath →
        tagOf hd = some "h3" ∧
        attrsOf hd = [("fontFamily", "Montserrat, sans-serif"),
          ("marginTop", "0")]) :=
  layout_header_title_link_and_route_heading ⟨"/"⟩ "skribblin" [] 2019

/-- C3 counterexample: rendering is not independent of the ambient
clock: the same Layout input rendered in 2018 and in 2019 produces
different markup (the footer's copyright year differs). -/
theorem layout_rendering_depends_on_clock_counterexample :
    Layout ⟨"/"⟩ "skribblin" [] 2018 ≠ Layout ⟨"/"⟩ "skribblin" [] 2019 := by
  intro h
  have h2 := congrArg footerYearTextOf h
  simp only [Layout, footerYearTextOf] at h2
  exact absurd h2 (by decide)

/-- C3 (amended): rendering is deterministic given the inputs and the
clock reading; apart from the footer's copyright year — which reads the
current clock via `new Date().getFullYear()` — Layout's and BlogIndex's
markup depends only on the given inputs (and PostLink reads no ambient
state at all, having no clock input). -/
theorem rendering_deterministic_given_clock
    (location : Location) (title : String) (children : List Markup)
    (data : BlogIndexData) (y1 y2 : Int) :
    withoutFooter (Layout location title children y1) =
      withoutFooter (Layout location title children y2) ∧
    withoutFooter (BlogIndex data location y1) =
      withoutFooter (BlogIndex data location y2) :=
  ⟨rfl, rfl⟩

/-- C4: the summary paragraph of `PostLink` is the frontmatter
description whenever that is present and non-empty, and the excerpt
whenever the description is null or empty. -/
theorem postLink_summary_description_else_excerpt (post : PostNode) :
    (∀ d, post.frontmatter.description = some d → d ≠ "" →
      summaryRawOf (PostLink post) = some d) ∧
    ((post.frontmatter.description = none ∨
        post.frontmatter.description = some "") →
      summaryRawOf (PostLink post) = some post.excerpt) := by
  constructor
  · intro d hd hne
    simp [PostLink, summaryRawOf, jsOr, hd, hne]
  · rintro (hd | hd) <;> simp [PostLink, summaryRawOf, jsOr, hd]

/-- Witness for C4 at a post with a non-empty description. -/
theorem postLink_summary_description_else_excerpt_witness :
    summaryRawOf (PostLink
        ⟨"exc", ⟨"/p"⟩, ⟨"May 12, 2019", some "T", some "Desc"⟩⟩) =
      some "Desc" :=
  (postLink_summary_description_else_excerpt _).1 "Desc" rfl (by decide)

/-- C5: every post's slug is both the routing key (the `to` target of
the heading link `PostLink` renders) and the React key of its entry in
`BlogIndex`'s list; when the slugs are pairwise distinct, so are the
keys of the rendered entries. -/
theorem slug_is_routing_key_and_react_key (edges : List Edge)
    (huniq : (edges.map fun e => e.node.fields.slug).Nodup) :
    ((postEntries edges).filterMap entryKeyOf =
      edges.map fun e => e.node.fields.slug) ∧
    (∀ post : PostNode,
      (headingLinkOf (PostLink post)).bind linkTargetOf =
        some post.fields.slug) ∧
    ((postEntries edges).filterMap entryKeyOf).Nodup := by
  refine ⟨postEntries_filterMap_keyOf edges, ?_, ?_⟩
  · intro post
    simp [PostLink, headingLinkOf, linkTargetOf, lookupAttr]
  · rw [postEntries_filterMap_keyOf edges]; exact huniq

/-- Witness for C5 at two posts with distinct slugs. -/
theorem slug_is_routing_key_and_react_key_witness :
    (postEntries [⟨⟨"E1", ⟨"/p1"⟩, ⟨"d1", none, none⟩⟩⟩,
        ⟨⟨"E2", ⟨"/p2"⟩, ⟨"d2", none, none⟩⟩⟩]).filterMap entryKeyOf =
      ["/p1", "/p2"] ∧
    ((postEntries [⟨⟨"E1", ⟨"/p1"⟩, ⟨"d1", none, none⟩⟩⟩,
        ⟨⟨"E2", ⟨"/p2"⟩, ⟨"d2", none, none⟩⟩⟩]).filterMap entryKeyOf).Nodup := by
  obtain ⟨hk, _, hnd⟩ := slug_is_routing_key_and_react_key
    [⟨⟨"E1", ⟨"/p1"⟩, ⟨"d1", none, none⟩⟩⟩,
     ⟨⟨"E2", ⟨"/p2"⟩, ⟨"d2", none, none⟩⟩⟩] (by decide)
  exact ⟨hk, hnd⟩

/-- C6: Bio's markup depends only on the author field of the site
metadata: two metadata values agreeing on `author` (and possibly
differing on the social/twitter field) render identically. -/
theorem bio_depends_only_on_author (m1 m2 : BioMetadata)
    (h : m1.author = m2.author) : Bio m1 = Bio m2 := by
  simp [Bio, h]

/-- Witness for C6: same author, different twitter handles. -/
theorem bio_depends_only_on_author_witness :
    Bio ⟨"Julian", "helixbass"⟩ = Bio ⟨"Julian", "elsewhere"⟩ :=
  bio_depends_only_on_author ⟨"Julian", "helixbass"⟩ ⟨"Julian", "elsewhere"⟩ rfl

/-- C7: every markdown blog post's front-matter block carries exactly
the fields `title` and `date`, in that order, and the date value is an
ISO 8601 timestamp. -/
theorem blog_frontmatter_title_date_iso8601 :
    ∀ f ∈ blogFrontMatters,
      f.entries.map Prod.fst = ["title", "date"] ∧
      (lookupAttr "date" f.entries).map isIso8601 = some true := by
  decide

/-- Witness for C7 at the first blog post. -/
theorem blog_frontmatter_title_date_iso8601_witness :
    (⟨"content/blog/ad-hok-intro-at-a-glance/index.md",
      [("title", "From vanilla React hooks to ad-hok: At a glance"),
       ("date", "2019-09-27T09:00:00.000Z")]⟩ : FrontMatterFile).entries.map
        Prod.fst = ["title", "date"] ∧
    (lookupAttr "date"
      (⟨"content/blog/ad-hok-intro-at-a-glance/index.md",
        [("title", "From vanilla React hooks to ad-hok: At a glance"),
         ("date", "2019-09-27T09:00:00.000Z")]⟩ : FrontMatterFile).entries).map
        isIso8601 = some true :=
  blog_frontmatter_title_date_iso8601 _ (by decide)

/-- C8: rendering is read-only on the post data: the state-passing
embeddings of `PostLink` and `BlogIndex` return the input data
unchanged, so every field of every post (title, slug, date,
description, excerpt) survives rendering intact. -/
theorem render_leaves_post_data_unchanged (post : PostNode)
    (data : BlogIndexData) (location : Location) (currentYear : Int) :
    (renderPostLinkSt post).2 = post ∧
    (renderBlogIndexSt data location currentYear).2 = data :=
  ⟨rfl, rfl⟩

/-- C9: the heading link text of `PostLink` is the frontmatter title
whenever that is present and non-empty, and falls back to the post's
slug whenever the title is missing or empty. -/
theorem postLink_title_fallback_to_slug (post : PostNode) :
    (∀ t, post.frontmatter.title = some t → t ≠ "" →
      (headingLinkOf (PostLink post)).bind linkTextOf = some t) ∧
    ((post.frontmatter.title = none ∨ post.frontmatter.title = some "") →
      (headingLinkOf (PostLink post)).bind linkTextOf =
        some post.fields.slug) := by
  constructor
  · intro t ht hne
    simp [PostLink, headingLinkOf, linkTextOf, jsOr, ht, hne]
  · rintro (ht | ht) <;> simp [PostLink, headingLinkOf, linkTextOf, jsOr, ht]

/-- Witness for C9 at a post with a missing title. -/
theorem postLink_title_fallback_to_slug_witness :
    (headingLinkOf (PostLink
        ⟨"exc", ⟨"/p"⟩, ⟨"May 12, 2019", none, none⟩⟩)).bind linkTextOf =
      some "/p" :=
  (postLink_title_fallback_to_slug _).2 (Or.inl rfl)

/-- C10: the summary body chosen by `PostLink` (description falling back
to excerpt) is inserted via `dangerouslySetInnerHTML` as a raw node —
so the serialised HTML of every PostLink contains that string verbatim,
with no escaping applied to it. -/
theorem postLink_summary_inserted_verbatim (post : PostNode) :
    summaryRawOf (PostLink post) =
      some (jsOr post.frontmatter.description post.excerpt) ∧
    ∃ pre suf, renderHtml (PostLink post) =
      pre ++ (jsOr post.frontmatter.description post.excerpt) ++ suf := by
  constructor
  · simp [PostLink, summaryRawOf]
  · have h : strContains (jsOr post.frontmatter.description post.excerpt)
        (renderHtml (PostLink post)) := by
      simp only [PostLink, renderHtml, renderList, renderAttrs,
        String.append_assoc]
      repeat first
        | exact strContains_head _ _
        | apply strContains_pull
    obtain ⟨p, q, hp⟩ := h
    exact ⟨p, q, by rw [hp, String.append_assoc]⟩
